import Mathlib

/-!
Verification of the bulk-upload parcel pipeline
(`src/components/UploadPage.tsx`, `src/components/ParcelTable.tsx`,
`src/services/geminiService.ts`, `src/types.ts`).

The TypeScript source is shallowly embedded: each JS function becomes a
computable Lean definition over `List Char` / `String`, JS numbers that
carry weights and amounts become exact decimal fractions (`JSNum`), and the
nondeterministic pieces (uuid generation, timestamps, the asynchronous AI
call) become explicit parameters.  JS truthiness on strings is translated as
`≠ ""`, and `undefined`-able fields become `Option`.
-/

/-- Exact fraction representation for the JS numbers this pipeline handles
(weights and COD amounts parsed from decimal text): a numerator over a
positive power-of-ten denominator.  Comparisons are by cross-multiplication,
so they are decidable and kernel-computable. -/
structure JSNum where
  num : Int
  den : Nat := 1
deriving DecidableEq

instance : OfNat JSNum n := ⟨⟨n, 1⟩⟩

instance : LE JSNum := ⟨fun a b => a.num * b.den ≤ b.num * a.den⟩

instance : LT JSNum := ⟨fun a b => a.num * b.den < b.num * a.den⟩

instance (a b : JSNum) : Decidable (a ≤ b) :=
  inferInstanceAs (Decidable (a.num * b.den ≤ b.num * a.den))

instance (a b : JSNum) : Decidable (a < b) :=
  inferInstanceAs (Decidable (a.num * b.den < b.num * a.den))

/-- Embeds JS `String.prototype.trim` (ASCII whitespace at both ends). -/
def trimStr (s : String) : String :=
  ⟨((s.data.dropWhile Char.isWhitespace).reverse.dropWhile Char.isWhitespace).reverse⟩

/-- Embeds JS `String.prototype.toLowerCase` for the ASCII header keywords. -/
def toLowerStr (s : String) : String :=
  ⟨s.data.map Char.toLower⟩

/-- Embeds JS `String.prototype.includes`: `sub` occurs contiguously in `s`. -/
def listIncludes (s sub : List Char) : Bool :=
  match s with
  | [] => sub == []
  | _ :: t => sub.isPrefixOf s || listIncludes t sub

/-- Embeds JS `String.prototype.startsWith`. -/
def startsWithStr (s pre : String) : Bool :=
  s.data.take pre.data.length == pre.data

/-- Source `src/types.ts` — `enum ParcelStatus`. -/
inductive ParcelStatus
  | VALID
  | WARNING
  | ERROR
  | PENDING
deriving DecidableEq

instance : Inhabited ParcelStatus := ⟨ParcelStatus.PENDING⟩

/-- Source `src/types.ts` — `interface Parcel` (with the `codAmount` field the
stricter `UploadPage.tsx` variant populates).  `statusMessage?` is optional. -/
structure Parcel where
  id : String
  invoiceId : String
  recipientName : String
  address : String
  phone : String
  codAmount : JSNum
  weight : JSNum
  note : String
  serviceType : String
  status : ParcelStatus
  statusMessage : Option String
deriving DecidableEq

instance : Inhabited Parcel :=
  ⟨{ id := "", invoiceId := "", recipientName := "", address := "", phone := "",
     codAmount := 0, weight := 0, note := "", serviceType := "Standard",
     status := ParcelStatus.PENDING, statusMessage := none }⟩

/-- Source `src/types.ts` — `interface BulkUploadBatch`; the JS `Date` timestamp is a
`Nat` parameter in this embedding. -/
structure BulkUploadBatch where
  id : String
  timestamp : Nat
  totalParcels : Nat
  validParcels : Nat
  errorParcels : Nat
  parcels : List Parcel
deriving DecidableEq

/-- Source `src/components/UploadPage.tsx` line 21 (= `ParcelTable.tsx` line 12):
`allowedPrefixes`. -/
def allowedPrefixes : List String :=
  ["017", "013", "016", "018", "019", "014", "015"]

/-- Source `src/components/UploadPage.tsx` `normalizePhone` (lines 102-108):
strip non-digits; drop a 13-digit country-code form by 2 characters;
prepend a trunk 0 to a 10-digit subscriber number. -/
def normalizePhone (phone : String) : String :=
  let cleaned : String := ⟨phone.data.filter Char.isDigit⟩
  if startsWithStr cleaned "880" && (cleaned.data.length == 13) then
    ⟨cleaned.data.drop 2⟩
  else if startsWithStr cleaned "88" && (cleaned.data.length == 13) then
    ⟨cleaned.data.drop 2⟩
  else if (cleaned.data.length == 10) && startsWithStr cleaned "1" then
    ⟨'0' :: cleaned.data⟩
  else cleaned

/-- Source `src/components/ParcelTable.tsx` `normalizePhoneNumber` (lines 14-32):
the table's own copy of the same normalization. -/
def normalizePhoneNumber (phone : String) : String :=
  let cleaned : String := ⟨phone.data.filter Char.isDigit⟩
  if startsWithStr cleaned "880" && (cleaned.data.length == 13) then
    ⟨cleaned.data.drop 2⟩
  else if startsWithStr cleaned "88" && (cleaned.data.length == 13) then
    ⟨cleaned.data.drop 2⟩
  else if (cleaned.data.length == 10) && startsWithStr cleaned "1" then
    ⟨'0' :: cleaned.data⟩
  else cleaned

/-- Source `validatePhone` (UploadPage lines 110-113 = ParcelTable lines 34-37):
exactly 11 characters and an allowed operator prefix. -/
def validatePhone (phone : String) : Bool :=
  if phone.data.length ≠ 11 then false
  else allowedPrefixes.any (fun pre => startsWithStr phone pre)

/-- Source `src/components/UploadPage.tsx` lines 63-67: the delimiter sniff at the
top of `parseCSVContent` — count `,` versus `;` in the first line, prefer `;`
only on a strict majority. -/
def sniffDelimiter (text : String) : Char :=
  let firstLine : List Char := text.data.takeWhile (fun c => c ≠ '\n')
  let commaCount := firstLine.count ','
  let semiCount := firstLine.count ';'
  if semiCount > commaCount then ';' else ','

/-- Source `src/components/UploadPage.tsx` lines 69-98: the character scan of
`parseCSVContent`.  `row` and `field` are the in-progress accumulators,
`inQuotes` the quote state; a `""` pair inside quotes emits a literal quote
and consumes two characters, `\r\n` outside quotes is one line break, and a
pending field or partial row is flushed at end of input. -/
def csvScan (delim : Char) : List Char → List String → String → Bool → List (List String)
  | [], row, field, _ =>
      if field ≠ "" || row ≠ [] then [row ++ [trimStr field]] else []
  | '"' :: '"' :: rest2, row, field, true =>
      csvScan delim rest2 row (field.push '"') true
  | '"' :: rest, row, field, inQuotes =>
      csvScan delim rest row field (!inQuotes)
  | '\r' :: '\n' :: rest2, row, field, false =>
      (if field ≠ "" || row ≠ [] then [row ++ [trimStr field]] else []) ++
        csvScan delim rest2 [] "" false
  | c :: rest, row, field, inQuotes =>
      if c = delim && !inQuotes then
        csvScan delim rest (row ++ [trimStr field]) "" inQuotes
      else if (c = '\r' || c = '\n') && !inQuotes then
        (if field ≠ "" || row ≠ [] then [row ++ [trimStr field]] else []) ++
          csvScan delim rest [] "" inQuotes
      else
        csvScan delim rest row (field.push c) inQuotes

/-- Source `src/components/UploadPage.tsx` `parseCSVContent` (lines 57-100). -/
def parseCSVContent (text : String) : List (List String) :=
  csvScan (sniffDelimiter text) text.data [] "" false

/-- Source `src/components/UploadPage.tsx` lines 119-120: `findIndex` inside
`processCSVData` — first column whose lower-cased trimmed text contains one of
the keywords; JS returns `-1` when none matches, embedded as `none`. -/
def findHeaderIndex (headerRow : List String) (keywords : List String) : Option Nat :=
  headerRow.findIdx?
    (fun h => keywords.any (fun k => listIncludes (trimStr (toLowerStr h)).data (toLowerStr k).data))

/-- Source `src/components/UploadPage.tsx` lines 122-130: the resolved column index
for each of the 7 canonical fields. -/
structure HeaderIdx where
  invoice : Option Nat
  name : Option Nat
  phone : Option Nat
  address : Option Nat
  cod : Option Nat
  weight : Option Nat
  note : Option Nat

/-- Source `src/components/UploadPage.tsx` lines 122-130: the `idx` record built from
the header row. -/
def resolveHeader (headerRow : List String) : HeaderIdx :=
  { invoice := findHeaderIndex headerRow ["invoice", "inv", "id", "sl", "no"]
    name := findHeaderIndex headerRow ["name", "recipient", "customer", "receiver", "client"]
    phone := findHeaderIndex headerRow ["phone", "mobile", "contact", "number", "tel", "cell"]
    address := findHeaderIndex headerRow ["address", "location", "dest", "place", "area", "full"]
    cod := findHeaderIndex headerRow ["cod", "cash", "amount", "collect"]
    weight := findHeaderIndex headerRow ["weight", "kg", "mass", "gm", "gram"]
    note := findHeaderIndex headerRow ["note", "comment", "instruction", "remarks", "msg"] }

/-- Source `src/components/UploadPage.tsx` lines 133-137: `getVal` — read the found
column, falling back to the fixed positional index; out-of-range reads give
`""`; the value is trimmed. -/
def getVal (row : List String) (found : Option Nat) (fallbackIdx : Nat) : String :=
  match row.get? (found.getD fallbackIdx) with
  | some v => trimStr v
  | none => ""

/-- Embeds JS `String.prototype.replace` with a one-character string pattern:
only the first occurrence is replaced. -/
def replaceFirstChar (cs : List Char) (a b : Char) : List Char :=
  match cs with
  | [] => []
  | c :: t => if c = a then b :: t else c :: replaceFirstChar t a b

/-- Digit run to a natural number, for the `parseFloat` model. -/
def digitsToNat (cs : List Char) : Nat :=
  cs.foldl (fun acc c => acc * 10 + (c.toNat - '0'.toNat)) 0

/-- Models JS `parseFloat(...) || 0` on decimal inputs (optional sign, integer
digits, optional fractional digits); a failed parse (NaN) and `-0` collapse to
`0` via `|| 0`.  Exponent forms are not modelled — the weight/amount cells this
pipeline feeds it are plain decimals after the source's own character
stripping. -/
def parseFloatOr0 (s : String) : JSNum :=
  let signed : Int × List Char :=
    match s.data with
    | '-' :: t => (-1, t)
    | '+' :: t => (1, t)
    | cs => (1, cs)
  let intPart := signed.2.takeWhile Char.isDigit
  let rest := signed.2.dropWhile Char.isDigit
  let fracPart :=
    match rest with
    | '.' :: t => t.takeWhile Char.isDigit
    | _ => []
  if intPart = [] ∧ fracPart = [] then 0
  else
    { num := signed.1 * (digitsToNat intPart * 10 ^ fracPart.length + digitsToNat fracPart)
      den := 10 ^ fracPart.length }

/-- Source `src/components/UploadPage.tsx` lines 132-158: the record builder inside
`processCSVData` — extract the 7 fields by resolved index, coerce weight
(first `,` rewritten to `.`) and COD amount (non-`[0-9.]` stripped), normalize
the phone, and start every record at `PENDING` with no message.  `freshId`
stands for `uuidv4()`, applied to the row's position. -/
def buildRecord (freshId : Nat → String) (idx : HeaderIdx) (i : Nat)
    (row : List String) : Parcel :=
  let rawWeight : String := ⟨replaceFirstChar (getVal row idx.weight 5).data ',' '.'⟩
  let parsedWeight := parseFloatOr0 rawWeight
  let rawCod : String := ⟨(getVal row idx.cod 4).data.filter (fun c => c.isDigit || c = '.')⟩
  let parsedCod := parseFloatOr0 rawCod
  let phone := normalizePhone (getVal row idx.phone 2)
  { id := freshId i
    invoiceId := getVal row idx.invoice 0
    recipientName := getVal row idx.name 1
    phone := phone
    address := getVal row idx.address 3
    codAmount := parsedCod
    weight := parsedWeight
    note := getVal row idx.note 6
    serviceType := "Standard"
    status := ParcelStatus.PENDING
    statusMessage := none }

/-- Variant of `List.map` with the element's position, used for the per-row `uuidv4()`. -/
def mapIdxFrom (f : Nat → α → β) (i : Nat) : List α → List β
  | [] => []
  | a :: t => f i a :: mapIdxFrom f (i + 1) t

/-- Source `src/components/UploadPage.tsx` lines 161-167 (also 224-228): the
frequency census of non-empty trimmed invoice ids — the count a census lookup
`idCounts[tid]` returns for a non-empty trimmed id `tid`. -/
def trimCensus (ps : List Parcel) (tid : String) : Nat :=
  (ps.filter (fun p => trimStr p.invoiceId == tid)).length

/-- Source `src/components/UploadPage.tsx` lines 169-186: the status pass at the end
of `processCSVData` — duplicates become WARNING, then invalid phones ERROR,
everything else is returned unchanged (still `PENDING`). -/
def loadValidate (ps : List Parcel) (p : Parcel) : Parcel :=
  let tid := trimStr p.invoiceId
  if tid ≠ "" ∧ trimCensus ps tid > 1 then
    { p with status := ParcelStatus.WARNING, statusMessage := some "Duplicate Invoice ID" }
  else if validatePhone p.phone = false then
    { p with status := ParcelStatus.ERROR, statusMessage := some "Invalid Operator/Length" }
  else p

/-- Source `src/components/UploadPage.tsx` `processCSVData` (lines 115-187): header
inference, record building, the all-text-fields-empty row filter, and the
duplicate/phone status pass. -/
def processCSVData (freshId : Nat → String) (rows : List (List String)) : List Parcel :=
  if rows.length < 1 then []
  else
    let idx := resolveHeader (rows.headD [])
    let initialParcels :=
      (mapIdxFrom (buildRecord freshId idx) 0 (rows.drop 1)).filter
        (fun p => p.invoiceId ≠ "" || p.recipientName ≠ "" || p.phone ≠ "" || p.address ≠ "")
    initialParcels.map (loadValidate initialParcels)

/-- Source `src/components/ParcelTable.tsx` lines 55-58: the census inside
`updateParcel`.  Unlike the other two census sites, the id is NOT trimmed
(`if (p.invoiceId) idCounts[p.invoiceId]++`); for a non-empty id the lookup
returns the number of records carrying exactly that id. -/
def editCensus (ps : List Parcel) (tid : String) : Nat :=
  (ps.filter (fun p => p.invoiceId == tid)).length

/-- Source `src/components/ParcelTable.tsx` lines 60-80: the per-record status
re-derivation inside `updateParcel`: duplicate, then invalid phone, then
missing fields, else VALID with the message cleared. -/
def revalidateParcel (ps : List Parcel) (p : Parcel) : Parcel :=
  if p.invoiceId ≠ "" ∧ editCensus ps p.invoiceId > 1 then
    { p with status := ParcelStatus.WARNING, statusMessage := some "Duplicate Invoice ID" }
  else if validatePhone p.phone = false then
    { p with status := ParcelStatus.ERROR, statusMessage := some "Invalid Operator/Length" }
  else if p.invoiceId = "" ∨ p.recipientName = "" ∨ p.address = "" ∨ p.weight ≤ 0 then
    { p with status := ParcelStatus.ERROR, statusMessage := some "Missing Required Fields" }
  else
    { p with status := ParcelStatus.VALID, statusMessage := none }

/-- Source `src/components/ParcelTable.tsx` lines 54-80: the full-list validation
recomputation run after an edit. -/
def revalidateAll (ps : List Parcel) : List Parcel :=
  ps.map (revalidateParcel ps)

/-- A `Partial<Parcel>` edit payload: `none` = field absent from `updates`. -/
structure ParcelUpdate where
  invoiceId : Option String := none
  recipientName : Option String := none
  phone : Option String := none
  address : Option String := none
  codAmount : Option JSNum := none
  weight : Option JSNum := none
  note : Option String := none

/-- Source `src/components/ParcelTable.tsx` lines 44-49: `{ ...p, ...updates }`, then
a phone update is normalized. -/
def applyUpdate (p : Parcel) (u : ParcelUpdate) : Parcel :=
  let merged : Parcel :=
    { p with
      invoiceId := u.invoiceId.getD p.invoiceId
      recipientName := u.recipientName.getD p.recipientName
      address := u.address.getD p.address
      codAmount := u.codAmount.getD p.codAmount
      weight := u.weight.getD p.weight
      note := u.note.getD p.note }
  match u.phone with
  | some raw => { merged with phone := normalizePhoneNumber raw }
  | none => merged

/-- Source `src/components/ParcelTable.tsx` `updateParcel` (lines 39-82): apply the
edit to the matching record, then re-run all validations over the whole
list. -/
def updateParcel (ps : List Parcel) (targetId : String) (u : ParcelUpdate) : List Parcel :=
  let next := ps.map (fun p => if p.id == targetId then applyUpdate p u else p)
  revalidateAll next

/-- Source `src/components/UploadPage.tsx` lines 230-260: the per-survivor state
transition inside `handleRemoveParcel` — heal a record that was marked
duplicate and no longer is (re-checking only the phone), newly mark a record
that became duplicate, and leave everything else untouched. -/
def healOnRemove (filtered : List Parcel) (p : Parcel) : Parcel :=
  let tid := trimStr p.invoiceId
  if p.statusMessage = some "Duplicate Invoice ID" ∧ ¬(tid ≠ "" ∧ trimCensus filtered tid > 1) then
    if validatePhone p.phone = false then
      { p with status := ParcelStatus.ERROR, statusMessage := some "Invalid Operator/Length" }
    else
      { p with status := ParcelStatus.VALID, statusMessage := none }
  else if ¬(p.statusMessage = some "Duplicate Invoice ID") ∧ (tid ≠ "" ∧ trimCensus filtered tid > 1) then
    { p with status := ParcelStatus.WARNING, statusMessage := some "Duplicate Invoice ID" }
  else p

/-- Source `src/components/UploadPage.tsx` `handleRemoveParcel` (lines 220-262):
drop the record with the given id, rebuild the trimmed census, and re-derive
the survivors' duplicate state. -/
def handleRemoveParcel (ps : List Parcel) (rid : String) : List Parcel :=
  let filtered := ps.filter (fun p => p.id != rid)
  filtered.map (healOnRemove filtered)

/-- Source `src/components/UploadPage.tsx` line 24: the non-empty trimmed invoice ids
underlying `hasDuplicates`. -/
def nonEmptyTrimmedIds (ps : List Parcel) : List String :=
  (ps.map (fun p => trimStr p.invoiceId)).filter (fun i => i != "")

/-- Source `src/components/UploadPage.tsx` lines 23-26: `hasDuplicates` —
`new Set(ids).size !== ids.length`. -/
def hasDuplicates (ps : List Parcel) : Bool :=
  (nonEmptyTrimmedIds ps).dedup.length != (nonEmptyTrimmedIds ps).length

/-- Source `src/components/UploadPage.tsx` lines 28-30: `hasErrors`. -/
def hasErrors (ps : List Parcel) : Bool :=
  ps.any (fun p => p.status == ParcelStatus.ERROR)

/-- Source `src/components/UploadPage.tsx` `confirmUpload` (lines 290-302).  The
`Option` result models the single `onBatchComplete` emission: `none` = the
guard returned early and no batch was assembled, `some b` = `onBatchComplete`
fired exactly once with `b`.  `batchId` stands for `uuidv4()` and `now` for
`new Date()`. -/
def confirmUpload (ps : List Parcel) (batchId : String) (now : Nat) : Option BulkUploadBatch :=
  if hasDuplicates ps || hasErrors ps then none
  else
    some
      { id := batchId
        timestamp := now
        totalParcels := ps.length
        validParcels := (ps.filter (fun p => p.status == ParcelStatus.VALID)).length
        errorParcels := (ps.filter (fun p => p.status == ParcelStatus.ERROR)).length
        parcels := ps }

/-- Source `src/types.ts` — one entry of `AIAnalysisResult.correctedParcels`
(`id` and `issue` required by the response schema, `suggestedAddress`
optional). -/
structure AICorrection where
  id : String
  suggestedAddress : Option String
  issue : String
deriving DecidableEq

/-- Source `src/types.ts` — `interface AIAnalysisResult`. -/
structure AIAnalysisResult where
  summary : String
  recommendations : List String
  correctedParcels : List AICorrection
deriving DecidableEq

/-- Source `src/services/geminiService.ts` lines 87-91: the static fallback returned
from the `catch` block. -/
def fallbackResult : AIAnalysisResult :=
  { summary := "Could not complete AI analysis at this time."
    recommendations := ["Manually verify all addresses", "Check weight constraints"]
    correctedParcels := [] }

/-- Source `src/services/geminiService.ts` `analyzeParcels` (lines 38-93): the
`try/catch` call boundary.  `call` is the network round trip; a throw or
rejection is modelled as `none` and replaced by the fallback. -/
def analyzeParcels (call : List Parcel → Option AIAnalysisResult)
    (ps : List Parcel) : AIAnalysisResult :=
  match call ps with
  | some r => r
  | none => fallbackResult

/-- Source `src/components/UploadPage.tsx` lines 270-283: the record overlay inside
`startAIAnalysis` — corrected records are forced to WARNING with the issue
appended to any existing (truthy) message and the suggested address applied if
truthy; untouched records promote `PENDING` to `VALID`. -/
def applyAIResult (ps : List Parcel) (result : AIAnalysisResult) : List Parcel :=
  ps.map (fun p =>
    match result.correctedParcels.find? (fun c => c.id == p.id) with
    | some correction =>
        { p with
          status := ParcelStatus.WARNING
          statusMessage :=
            some (match p.statusMessage with
              | some m => if m ≠ "" then m ++ " & " ++ correction.issue else correction.issue
              | none => correction.issue)
          address :=
            match correction.suggestedAddress with
            | some a => if a ≠ "" then a else p.address
            | none => p.address }
    | none =>
        { p with status := if p.status = ParcelStatus.PENDING then ParcelStatus.VALID else p.status })

/-- Spec-side transcription of claim C1's priority rules, worded from the
claim: (a) non-empty invoice id with census count over 1 → WARNING "Duplicate
Invoice ID"; (b) else a phone that is not exactly 11 digits or whose first 3
digits are outside the allowed operator set → ERROR "Invalid Operator/Length";
(c) else empty invoice id / name / address or weight ≤ 0 → ERROR "Missing
Required Fields"; (d) else VALID with the reason cleared.  To be compared with
`revalidateParcel`, the implementation-side definition. -/
def claimRevalidate (ps : List Parcel) (p : Parcel) : Parcel :=
  if p.invoiceId ≠ "" ∧ (ps.filter (fun q => q.invoiceId == p.invoiceId)).length > 1 then
    { p with status := ParcelStatus.WARNING, statusMessage := some "Duplicate Invoice ID" }
  else if ¬(p.phone.data.length = 11 ∧ p.phone.data.take 3 ∈ allowedPrefixes.map String.data) then
    { p with status := ParcelStatus.ERROR, statusMessage := some "Invalid Operator/Length" }
  else if p.invoiceId = "" ∨ p.recipientName = "" ∨ p.address = "" ∨ p.weight ≤ 0 then
    { p with status := ParcelStatus.ERROR, statusMessage := some "Missing Required Fields" }
  else
    { p with status := ParcelStatus.VALID, statusMessage := none }

/-- C3: Phone normalization maps the four spec inputs to "01712345678", and
validation accepts "01712345678" while rejecting "02712345678" (prefix) and
"017123456" (length 9); the `ParcelTable` copy agrees on all four inputs. -/
theorem C3_phone_normalization_roundtrip :
    normalizePhone "+880 1712-345678" = "01712345678" ∧
    normalizePhone "880 1712345678" = "01712345678" ∧
    normalizePhone "8801712345678" = "01712345678" ∧
    normalizePhone "1712345678" = "01712345678" ∧
    validatePhone "01712345678" = true ∧
    validatePhone "02712345678" = false ∧
    validatePhone "017123456" = false ∧
    normalizePhoneNumber "+880 1712-345678" = "01712345678" ∧
    normalizePhoneNumber "880 1712345678" = "01712345678" ∧
    normalizePhoneNumber "8801712345678" = "01712345678" ∧
    normalizePhoneNumber "1712345678" = "01712345678" := by
  decide

/-- C5: the streaming tokenizer splits `A,"B,C","D""E"` + newline + `F,G,H`
(delimiter `,`) into exactly the rows [["A","B,C","D\"E"],["F","G","H"]]:
quotes toggle quote state, `""` inside quotes emits one literal quote,
delimiters/newlines inside quotes are literal, and the pending row at end of
input is flushed. -/
theorem C5_tokenizer_correctness :
    parseCSVContent "A,\"B,C\",\"D\"\"E\"\nF,G,H" =
      [["A", "B,C", "D\"E"], ["F", "G", "H"]] := by
  decide

/-- A concrete well-formed record used by the closed witnesses. -/
def sampleParcel : Parcel :=
  { id := "r1", invoiceId := "INV-1", recipientName := "Abdur Rahman",
    address := "House 12, Dhanmondi, Dhaka", phone := "01712345678",
    codAmount := 1500, weight := 1, note := "", serviceType := "Standard",
    status := ParcelStatus.PENDING, statusMessage := none }

theorem validatePhone_unfold (s : String) :
    validatePhone s =
      (if s.data.length ≠ 11 then false
       else
        (s.data.take 3 == ['0', '1', '7'] ||
          (s.data.take 3 == ['0', '1', '3'] ||
            (s.data.take 3 == ['0', '1', '6'] ||
              (s.data.take 3 == ['0', '1', '8'] ||
                (s.data.take 3 == ['0', '1', '9'] ||
                  (s.data.take 3 == ['0', '1', '4'] ||
                    (s.data.take 3 == ['0', '1', '5'] || false)))))))) := rfl

theorem validatePhone_iff (s : String) :
    validatePhone s = true ↔
      s.data.length = 11 ∧ s.data.take 3 ∈ allowedPrefixes.map String.data := by
  rw [validatePhone_unfold,
    show allowedPrefixes.map String.data =
      [['0', '1', '7'], ['0', '1', '3'], ['0', '1', '6'], ['0', '1', '8'],
        ['0', '1', '9'], ['0', '1', '4'], ['0', '1', '5']] from rfl]
  by_cases h : s.data.length = 11 <;> simp [h]

theorem revalidateParcel_eq_claim (ps : List Parcel) (p : Parcel) :
    revalidateParcel ps p = claimRevalidate ps p := by
  have hphone : (validatePhone p.phone = false) ↔
      ¬(p.phone.data.length = 11 ∧
        p.phone.data.take 3 ∈ allowedPrefixes.map String.data) := by
    rw [← validatePhone_iff]
    cases validatePhone p.phone <;> simp
  unfold revalidateParcel claimRevalidate editCensus
  simp only [hphone]

/-- C1: over any record list whose stored phones are digit strings (the
invariant the build/edit paths maintain), the validation recomputation run
after an edit (`updateParcel`'s census-and-map pass) assigns every record's
status and reason exactly by the claim's priority rules (a) duplicate
WARNING, (b) invalid-phone ERROR, (c) missing-fields ERROR, (d) VALID with
the reason cleared — first match wins. -/
theorem C1_edit_revalidation_priority (ps : List Parcel)
    (hdig : ∀ p ∈ ps, p.phone.data.all Char.isDigit = true) :
    revalidateAll ps = ps.map (claimRevalidate ps) := by
  unfold revalidateAll
  exact List.map_congr_left (fun p _ => revalidateParcel_eq_claim ps p)

/-- Witness for C1 at a concrete one-record list. -/
theorem C1_edit_revalidation_priority_witness :
    (∀ p ∈ [sampleParcel], p.phone.data.all Char.isDigit = true) ∧
    revalidateAll [sampleParcel] = [sampleParcel].map (claimRevalidate [sampleParcel]) :=
  ⟨by decide, C1_edit_revalidation_priority [sampleParcel] (by decide)⟩

/-- C2 (amended): if record `p` survives a removal, was WARNING-marked as a
duplicate, and after the removal no other remaining record shares its
non-empty trimmed invoice id, the removal handler re-derives `p`'s state via
the phone check rather than promoting it blindly: with a valid phone (in
particular when the required fields are also valid) `p` becomes VALID with
its reason cleared, and with an invalid phone it becomes ERROR "Invalid
Operator/Length".  The field check is not re-run on removal (see the
counterexample). -/
theorem C2_removal_healing (ps : List Parcel) (rid : String) (p : Parcel)
    (hmem : p ∈ ps) (hid : p.id ≠ rid)
    (hst : p.status = ParcelStatus.WARNING)
    (hmsg : p.statusMessage = some "Duplicate Invoice ID")
    (hne : trimStr p.invoiceId ≠ "")
    (hsolo : trimCensus (ps.filter (fun q => q.id != rid)) (trimStr p.invoiceId) ≤ 1) :
    (validatePhone p.phone = true →
      (p.invoiceId ≠ "" ∧ p.recipientName ≠ "" ∧ p.address ≠ "" ∧ 0 < p.weight) →
      { p with status := ParcelStatus.VALID, statusMessage := none }
        ∈ handleRemoveParcel ps rid) ∧
    (validatePhone p.phone = false →
      { p with status := ParcelStatus.ERROR, statusMessage := some "Invalid Operator/Length" }
        ∈ handleRemoveParcel ps rid) := by
  have hmemF : p ∈ ps.filter (fun q => q.id != rid) :=
    List.mem_filter.mpr ⟨hmem, by simpa [bne_iff_ne] using hid⟩
  have hcond : p.statusMessage = some "Duplicate Invoice ID" ∧
      ¬(trimStr p.invoiceId ≠ "" ∧
        trimCensus (ps.filter (fun q => q.id != rid)) (trimStr p.invoiceId) > 1) :=
    ⟨hmsg, fun h => absurd h.2 (by omega)⟩
  constructor
  · intro hv _
    have heal : healOnRemove (ps.filter (fun q => q.id != rid)) p =
        { p with status := ParcelStatus.VALID, statusMessage := none } := by
      simp only [healOnRemove]
      rw [if_pos hcond, if_neg (by simp [hv])]
    exact heal ▸ List.mem_map_of_mem _ hmemF
  · intro hv
    have heal : healOnRemove (ps.filter (fun q => q.id != rid)) p =
        { p with status := ParcelStatus.ERROR,
                 statusMessage := some "Invalid Operator/Length" } := by
      simp only [healOnRemove]
      rw [if_pos hcond, if_pos hv]
    exact heal ▸ List.mem_map_of_mem _ hmemF

/-- Two concrete records sharing invoice id "X", both WARNING-marked
duplicates, used by the C2 witness; `dupParcelB` has a valid phone and valid
required fields. -/
def dupParcelA : Parcel :=
  { id := "u1", invoiceId := "X", recipientName := "A", address := "Adr",
    phone := "01712345678", codAmount := 0, weight := 1, note := "",
    serviceType := "Standard", status := ParcelStatus.WARNING,
    statusMessage := some "Duplicate Invoice ID" }

/-- Sibling of `dupParcelA` with a distinct record id. -/
def dupParcelB : Parcel :=
  { id := "u2", invoiceId := "X", recipientName := "B", address := "Adr",
    phone := "01812345678", codAmount := 0, weight := 1, note := "",
    serviceType := "Standard", status := ParcelStatus.WARNING,
    statusMessage := some "Duplicate Invoice ID" }

/-- Witness for C2: removing `dupParcelA` from the two-record list. -/
theorem C2_removal_healing_witness :
    (validatePhone dupParcelB.phone = true →
      (dupParcelB.invoiceId ≠ "" ∧ dupParcelB.recipientName ≠ "" ∧
        dupParcelB.address ≠ "" ∧ 0 < dupParcelB.weight) →
      { dupParcelB with status := ParcelStatus.VALID, statusMessage := none }
        ∈ handleRemoveParcel [dupParcelA, dupParcelB] "u1") ∧
    (validatePhone dupParcelB.phone = false →
      { dupParcelB with status := ParcelStatus.ERROR,
                        statusMessage := some "Invalid Operator/Length" }
        ∈ handleRemoveParcel [dupParcelA, dupParcelB] "u1") :=
  C2_removal_healing [dupParcelA, dupParcelB] "u1" dupParcelB
    (by decide) (by decide) (by decide) (by decide) (by decide) (by decide)

theorem hasErrors_iff (ps : List Parcel) :
    hasErrors ps = true ↔ ∃ p ∈ ps, p.status = ParcelStatus.ERROR := by
  simp [hasErrors]

theorem hasDuplicates_iff (ps : List Parcel) :
    hasDuplicates ps = true ↔ ¬(nonEmptyTrimmedIds ps).Nodup := by
  unfold hasDuplicates
  rw [bne_iff_ne]
  constructor
  · intro h hnd
    exact h (by rw [List.dedup_eq_self.mpr hnd])
  · intro h hlen
    exact h (List.dedup_eq_self.mp ((List.dedup_sublist _).eq_of_length hlen))

/-- C4: a batch is never assembled — the `onBatchComplete` emission stays
`none` — exactly while some record has status ERROR or the non-empty trimmed
invoice ids contain a repeat; once neither holds, confirmation emits exactly
one batch, and that batch freezes the current record list with its length as
the total count. -/
theorem C4_confirm_gating (ps : List Parcel) (batchId : String) (now : Nat) :
    (confirmUpload ps batchId now = none ↔
      (∃ p ∈ ps, p.status = ParcelStatus.ERROR) ∨ ¬(nonEmptyTrimmedIds ps).Nodup) ∧
    (∀ b, confirmUpload ps batchId now = some b →
      b.parcels = ps ∧ b.totalParcels = ps.length) := by
  unfold confirmUpload
  rcases hguard : (hasDuplicates ps || hasErrors ps) with _ | _
  · rcases Bool.or_eq_false_iff.mp hguard with ⟨hd, he⟩
    simp only [Bool.false_eq_true, if_false]
    constructor
    · constructor
      · intro h; cases h
      · rintro (h | h)
        · rw [← hasErrors_iff] at h; rw [he] at h; cases h
        · rw [← hasDuplicates_iff] at h; rw [hd] at h; cases h
    · intro b hb
      cases hb
      exact ⟨rfl, rfl⟩
  · simp only [if_true]
    constructor
    · constructor
      · intro _
        rcases Bool.or_eq_true_iff.mp hguard with h | h
        · exact Or.inr ((hasDuplicates_iff ps).mp h)
        · exact Or.inl ((hasErrors_iff ps).mp h)
      · intro _; trivial
    · intro b hb; cases hb

/-- A concrete confirmable record (VALID status, unique invoice id) for the
C4/C10 witnesses. -/
def confirmableParcel : Parcel :=
  { id := "v1", invoiceId := "INV-9", recipientName := "C", address := "Adr",
    phone := "01912345678", codAmount := 0, weight := 1, note := "",
    serviceType := "Standard", status := ParcelStatus.VALID, statusMessage := none }

/-- The batch `confirmUpload` assembles from `[confirmableParcel]`. -/
def confirmableBatch : BulkUploadBatch :=
  { id := "b1", timestamp := 0, totalParcels := 1, validParcels := 1,
    errorParcels := 0, parcels := [confirmableParcel] }

/-- Witness for C4 at the one-record confirmable list. -/
theorem C4_confirm_gating_witness :
    confirmableBatch.parcels = [confirmableParcel] ∧
    confirmableBatch.totalParcels = [confirmableParcel].length :=
  (C4_confirm_gating [confirmableParcel] "b1" 0).2 confirmableBatch (by decide)

theorem pairwise_of_nodup_ids (ps : List Parcel)
    (h : (nonEmptyTrimmedIds ps).Nodup) :
    ps.Pairwise (fun p q =>
      trimStr p.invoiceId ≠ "" → trimStr p.invoiceId ≠ trimStr q.invoiceId) := by
  unfold nonEmptyTrimmedIds at h
  induction ps with
  | nil => exact List.Pairwise.nil
  | cons p t ih =>
    rw [List.map_cons, List.filter_cons] at h
    by_cases hp : trimStr p.invoiceId = ""
    · rw [if_neg (by simp [hp])] at h
      exact List.Pairwise.cons (fun q _ hne => absurd hp hne) (ih h)
    · rw [if_pos (by simpa [bne_iff_ne] using hp)] at h
      rcases List.nodup_cons.mp h with ⟨hhead, htail⟩
      refine List.Pairwise.cons (fun q hq _ heq => ?_) (ih htail)
      exact hhead (List.mem_filter.mpr
        ⟨heq ▸ List.mem_map_of_mem _ hq, by simpa [bne_iff_ne] using hp⟩)

/-- C10: every batch the confirmation emits has an `errorParcels` count of 0
and contains no two parcels sharing the same non-empty trimmed invoice id —
the guard rules out ERROR records and duplicate ids, and the aggregate counts
come from the same list frozen into the batch. -/
theorem C10_batch_invariant (ps : List Parcel) (batchId : String) (now : Nat)
    (b : BulkUploadBatch) (h : confirmUpload ps batchId now = some b) :
    b.errorParcels = 0 ∧
    b.parcels.Pairwise (fun p q =>
      trimStr p.invoiceId ≠ "" → trimStr p.invoiceId ≠ trimStr q.invoiceId) := by
  unfold confirmUpload at h
  rcases hguard : (hasDuplicates ps || hasErrors ps) with _ | _
  · rw [hguard] at h
    simp only [Bool.false_eq_true, if_false] at h
    rcases Bool.or_eq_false_iff.mp hguard with ⟨hd, he⟩
    cases h
    constructor
    · have hnone : ∀ p ∈ ps, ¬(p.status == ParcelStatus.ERROR) = true := by
        intro p hp hcontra
        have : hasErrors ps = true := List.any_eq_true.mpr ⟨p, hp, hcontra⟩
        rw [he] at this; cases this
      simp only [List.length_eq_zero]
      exact List.filter_eq_nil_iff.mpr hnone
    · have hnd : (nonEmptyTrimmedIds ps).Nodup := by
        by_contra hcontra
        rw [← hasDuplicates_iff] at hcontra
        rw [hd] at hcontra; cases hcontra
      exact pairwise_of_nodup_ids ps hnd
  · rw [hguard] at h
    simp only [if_true] at h
    cases h

/-- Witness for C10 at the one-record confirmable list. -/
theorem C10_batch_invariant_witness :
    confirmableBatch.errorParcels = 0 ∧
    confirmableBatch.parcels.Pairwise (fun p q =>
      trimStr p.invoiceId ≠ "" → trimStr p.invoiceId ≠ trimStr q.invoiceId) :=
  C10_batch_invariant [confirmableParcel] "b1" 0 confirmableBatch (by decide)

theorem mem_mapIdxFrom {α β : Type} {f : Nat → α → β} {b : β} :
    ∀ {l : List α} {i : Nat}, b ∈ mapIdxFrom f i l → ∃ j a, b = f j a := by
  intro l
  induction l with
  | nil => intro i h; cases h
  | cons a t ih =>
    intro i h
    rcases List.mem_cons.mp h with h | h
    · exact ⟨i, a, h⟩
    · exact ih h

theorem loadValidate_invoiceId (ps : List Parcel) (p : Parcel) :
    (loadValidate ps p).invoiceId = p.invoiceId := by
  simp only [loadValidate]
  split_ifs <;> rfl

theorem loadValidate_phone (ps : List Parcel) (p : Parcel) :
    (loadValidate ps p).phone = p.phone := by
  simp only [loadValidate]
  split_ifs <;> rfl

theorem healOnRemove_invoiceId (ps : List Parcel) (p : Parcel) :
    (healOnRemove ps p).invoiceId = p.invoiceId := by
  simp only [healOnRemove]
  split_ifs <;> rfl

theorem revalidateParcel_invoiceId (ps : List Parcel) (p : Parcel) :
    (revalidateParcel ps p).invoiceId = p.invoiceId := by
  simp only [revalidateParcel]
  split_ifs <;> rfl

theorem revalidateParcel_phone (ps : List Parcel) (p : Parcel) :
    (revalidateParcel ps p).phone = p.phone := by
  simp only [revalidateParcel]
  split_ifs <;> rfl

/-- Two concrete records whose invoice id is a single space — empty after
trimming but truthy for JS — used to exhibit the untrimmed census of the
edit-time revalidation. -/
def wsParcelA : Parcel :=
  { id := "w1", invoiceId := " ", recipientName := "A", address := "Adr",
    phone := "01712345678", codAmount := 0, weight := 1, note := "",
    serviceType := "Standard", status := ParcelStatus.PENDING, statusMessage := none }

/-- Sibling of `wsParcelA` with a distinct record id. -/
def wsParcelB : Parcel :=
  { id := "w2", invoiceId := " ", recipientName := "B", address := "Adr",
    phone := "01812345678", codAmount := 0, weight := 1, note := "",
    serviceType := "Standard", status := ParcelStatus.PENDING, statusMessage := none }

/-- C6 counterexample: a record whose invoice id is empty after trimming (a
single space) IS assigned the duplicate WARNING by the edit-time
revalidation, because `updateParcel`'s census keys untrimmed ids. -/
theorem C6_counterexample_ws_duplicate :
    trimStr wsParcelA.invoiceId = "" ∧
    ((updateParcel [wsParcelA, wsParcelB] "w2" { note := some "x" }).headD default).status
      = ParcelStatus.WARNING ∧
    ((updateParcel [wsParcelA, wsParcelB] "w2" { note := some "x" }).headD default).statusMessage
      = some "Duplicate Invoice ID" := by
  decide

/-- C6 amended: a record whose invoice id is empty after trimming never
receives the duplicate WARNING from the initial load or from the removal
handler, no matter how many other records share it; in the edit-time
revalidation only a literally empty invoice id is exempt (a whitespace-only
id can be marked duplicate there, as the counterexample shows). -/
theorem C6_empty_id_exemption_amended (freshId : Nat → String)
    (rows : List (List String)) (ps : List Parcel) (rid : String) (p : Parcel) :
    (p ∈ processCSVData freshId rows → trimStr p.invoiceId = "" →
      p.statusMessage ≠ some "Duplicate Invoice ID") ∧
    (p ∈ handleRemoveParcel ps rid → trimStr p.invoiceId = "" →
      p.statusMessage ≠ some "Duplicate Invoice ID") ∧
    (p ∈ revalidateAll ps → p.invoiceId = "" →
      p.statusMessage ≠ some "Duplicate Invoice ID") := by
  refine ⟨?_, ?_, ?_⟩
  · intro hmem htrim
    simp only [processCSVData] at hmem
    by_cases hlen : rows.length < 1
    · rw [if_pos hlen] at hmem; cases hmem
    · rw [if_neg hlen] at hmem
      rcases List.mem_map.mp hmem with ⟨q, hq, rfl⟩
      rw [loadValidate_invoiceId] at htrim
      simp only [loadValidate]
      rw [if_neg (by simp [htrim])]
      split_ifs
      · simp
      · have hq2 := (List.mem_filter.mp hq).1
        rcases mem_mapIdxFrom hq2 with ⟨j, row, rfl⟩
        simp [buildRecord]
  · intro hmem htrim
    simp only [handleRemoveParcel] at hmem
    rcases List.mem_map.mp hmem with ⟨q, hq, rfl⟩
    rw [healOnRemove_invoiceId] at htrim
    simp only [healOnRemove]
    split_ifs with h1 h2 h3
    · simp
    · simp
    · exact absurd h3.2.1 (by simp [htrim])
    · intro hcontra
      exact h1 ⟨hcontra, fun hc => absurd hc.1 (by simp [htrim])⟩
  · intro hmem hempty
    simp only [revalidateAll] at hmem
    rcases List.mem_map.mp hmem with ⟨q, hq, rfl⟩
    rw [revalidateParcel_invoiceId] at hempty
    simp only [revalidateParcel]
    rw [if_neg (by simp [hempty])]
    split_ifs <;> simp

/-- A concrete record with a literally empty invoice id. -/
def emptyIdParcel : Parcel :=
  { id := "e1", invoiceId := "", recipientName := "E", address := "Adr",
    phone := "01712345678", codAmount := 0, weight := 1, note := "",
    serviceType := "Standard", status := ParcelStatus.PENDING, statusMessage := none }

/-- A concrete CSV row set whose single data row has an empty invoice id. -/
def c6Rows : List (List String) :=
  [["Invoice", "Name", "Phone", "Address", "COD", "Weight", "Note"],
   ["", "NameX", "01712345678", "Adr", "0", "1", ""]]

/-- Witness for the amended C6, exercising the initial-load part and the
edit-time revalidation part at concrete inputs. -/
theorem C6_empty_id_exemption_amended_witness :
    ((processCSVData (fun _ => "g1") c6Rows).headD default).statusMessage
      ≠ some "Duplicate Invoice ID" ∧
    ((revalidateAll [emptyIdParcel]).headD default).statusMessage
      ≠ some "Duplicate Invoice ID" :=
  ⟨(C6_empty_id_exemption_amended (fun _ => "g1") c6Rows [] "" _).1
      (by decide) (by decide),
   (C6_empty_id_exemption_amended (fun _ => "g1") c6Rows [emptyIdParcel] "" _).2.2
      (by decide) (by decide)⟩

/-- C7 counterexample: applying the static fallback result DOES alter a
record's status — a PENDING record is promoted to VALID by the no-correction
branch of the overlay. -/
theorem C7_counterexample_fallback_alters_status :
    ((applyAIResult [sampleParcel] fallbackResult).headD default).status
      ≠ sampleParcel.status := by
  decide

/-- C7 amended: a throwing/rejecting AI call is caught at the call boundary
and replaced by the static fallback (fixed summary, exactly two generic
recommendations, empty corrections list); applying that fallback leaves every
record's fields and reason unchanged and changes a status only by promoting
PENDING to VALID. -/
theorem C7_fallback_amended (ps : List Parcel) :
    analyzeParcels (fun _ => none) ps = fallbackResult ∧
    fallbackResult.summary = "Could not complete AI analysis at this time." ∧
    fallbackResult.recommendations.length = 2 ∧
    fallbackResult.correctedParcels = [] ∧
    applyAIResult ps fallbackResult =
      ps.map (fun p =>
        { p with status := if p.status = ParcelStatus.PENDING then ParcelStatus.VALID
                           else p.status }) :=
  ⟨rfl, rfl, rfl, rfl, rfl⟩

/-- C8: every record the initial load produces is PENDING with no reason,
WARNING "Duplicate Invoice ID", or ERROR "Invalid Operator/Length" — the
initial load never assigns "Missing Required Fields", so a freshly imported
record with missing name/address or zero weight stays PENDING until edited. -/
theorem C8_initial_load_statuses (freshId : Nat → String) (rows : List (List String))
    (p : Parcel) (hmem : p ∈ processCSVData freshId rows) :
    (p.status = ParcelStatus.PENDING ∧ p.statusMessage = none) ∨
    (p.status = ParcelStatus.WARNING ∧ p.statusMessage = some "Duplicate Invoice ID") ∨
    (p.status = ParcelStatus.ERROR ∧ p.statusMessage = some "Invalid Operator/Length") := by
  simp only [processCSVData] at hmem
  by_cases hlen : rows.length < 1
  · rw [if_pos hlen] at hmem; cases hmem
  · rw [if_neg hlen] at hmem
    rcases List.mem_map.mp hmem with ⟨q, hq, rfl⟩
    simp only [loadValidate]
    split_ifs
    · exact Or.inr (Or.inl ⟨rfl, rfl⟩)
    · exact Or.inr (Or.inr ⟨rfl, rfl⟩)
    · rcases mem_mapIdxFrom (List.mem_filter.mp hq).1 with ⟨j, row, rfl⟩
      exact Or.inl ⟨rfl, rfl⟩

/-- Witness for C8 on a concrete two-row CSV. -/
theorem C8_initial_load_statuses_witness :
    (((processCSVData (fun _ => "g1") c6Rows).headD default).status = ParcelStatus.PENDING ∧
      ((processCSVData (fun _ => "g1") c6Rows).headD default).statusMessage = none) ∨
    (((processCSVData (fun _ => "g1") c6Rows).headD default).status = ParcelStatus.WARNING ∧
      ((processCSVData (fun _ => "g1") c6Rows).headD default).statusMessage
        = some "Duplicate Invoice ID") ∨
    (((processCSVData (fun _ => "g1") c6Rows).headD default).status = ParcelStatus.ERROR ∧
      ((processCSVData (fun _ => "g1") c6Rows).headD default).statusMessage
        = some "Invalid Operator/Length") :=
  C8_initial_load_statuses (fun _ => "g1") c6Rows _ (by decide)

theorem normalizePhone_digits (s : String) :
    (normalizePhone s).data.all Char.isDigit = true := by
  simp only [normalizePhone]
  have hc : ∀ c ∈ s.data.filter Char.isDigit, Char.isDigit c = true :=
    fun c hcm => (List.mem_filter.mp hcm).2
  split_ifs
  · exact List.all_eq_true.mpr (fun c hcm => hc c (List.mem_of_mem_drop hcm))
  · exact List.all_eq_true.mpr (fun c hcm => hc c (List.mem_of_mem_drop hcm))
  · refine List.all_eq_true.mpr (fun c hcm => ?_)
    rcases List.mem_cons.mp hcm with rfl | hm
    · decide
    · exact hc c hm
  · exact List.all_eq_true.mpr hc

theorem normalizePhoneNumber_eq_normalizePhone (s : String) :
    normalizePhoneNumber s = normalizePhone s := rfl

/-- C9: stored phones are digit strings — normalization outputs only digits,
the build path stores a normalized phone for every produced record, and any
edit (phone edits are normalized, other edits leave phones untouched)
preserves the digits-only invariant across the whole list. -/
theorem C9_phone_digit_invariant :
    (∀ s : String, (normalizePhone s).data.all Char.isDigit = true) ∧
    (∀ (freshId : Nat → String) (rows : List (List String)) (p : Parcel),
      p ∈ processCSVData freshId rows → p.phone.data.all Char.isDigit = true) ∧
    (∀ (ps : List Parcel) (targetId : String) (u : ParcelUpdate) (q : Parcel),
      (∀ p ∈ ps, p.phone.data.all Char.isDigit = true) →
      q ∈ updateParcel ps targetId u → q.phone.data.all Char.isDigit = true) := by
  refine ⟨normalizePhone_digits, ?_, ?_⟩
  · intro freshId rows p hmem
    simp only [processCSVData] at hmem
    by_cases hlen : rows.length < 1
    · rw [if_pos hlen] at hmem; cases hmem
    · rw [if_neg hlen] at hmem
      rcases List.mem_map.mp hmem with ⟨q, hq, rfl⟩
      rw [loadValidate_phone]
      rcases mem_mapIdxFrom (List.mem_filter.mp hq).1 with ⟨j, row, rfl⟩
      exact normalizePhone_digits _
  · intro ps targetId u q hdig hmem
    simp only [updateParcel, revalidateAll] at hmem
    rcases List.mem_map.mp hmem with ⟨x, hx, rfl⟩
    rw [revalidateParcel_phone]
    rcases List.mem_map.mp hx with ⟨p, hp, rfl⟩
    by_cases hid : (p.id == targetId) = true
    · rw [if_pos hid]
      simp only [applyUpdate]
      cases hu : u.phone with
      | some raw =>
          simp only [hu]
          rw [normalizePhoneNumber_eq_normalizePhone]
          exact normalizePhone_digits raw
      | none =>
          simp only [hu]
          exact hdig p hp
    · rw [if_neg hid]
      exact hdig p hp

/-- Witness for C9 on concrete build and edit inputs. -/
theorem C9_phone_digit_invariant_witness :
    ((processCSVData (fun _ => "g1") c6Rows).headD default).phone.data.all Char.isDigit
      = true ∧
    ((updateParcel [sampleParcel] "r1"
        { phone := some "+880 1712-345678" }).headD default).phone.data.all Char.isDigit
      = true :=
  ⟨C9_phone_digit_invariant.2.1 (fun _ => "g1") c6Rows _ (by decide),
   C9_phone_digit_invariant.2.2 [sampleParcel] "r1"
     { phone := some "+880 1712-345678" } _ (by decide) (by decide)⟩

/-- A WARNING-marked duplicate of `dupParcelA` whose required fields are
invalid (empty recipient name) but whose phone is valid. -/
def dupParcelC : Parcel :=
  { id := "u3", invoiceId := "X", recipientName := "", address := "Adr",
    phone := "01712345678", codAmount := 0, weight := 1, note := "",
    serviceType := "Standard", status := ParcelStatus.WARNING,
    statusMessage := some "Duplicate Invoice ID" }

/-- C2 counterexample: the field check IS silently skipped by the removal
handler — a healed sibling with an empty recipient name is promoted straight
to VALID with its reason cleared, although the validation engine's own field
check (run here on the healed record) would flag "Missing Required Fields". -/
theorem C2_counterexample_field_check_skipped :
    dupParcelC.recipientName = "" ∧
    ((handleRemoveParcel [dupParcelA, dupParcelC] "u1").headD default).status
      = ParcelStatus.VALID ∧
    ((handleRemoveParcel [dupParcelA, dupParcelC] "u1").headD default).statusMessage
      = none ∧
    ((revalidateAll [(handleRemoveParcel [dupParcelA, dupParcelC] "u1").headD default]).headD
        default).statusMessage = some "Missing Required Fields" := by
  decide
